import Mathlib

/-!
Shallow embedding of the core of the NaturewatchCameraServer repository:
the motion-detecting change detector (`change_detector.py`), the file
saver (`file_saver.py`) and the device-clock API endpoint (`api.py`).

Image processing primitives from OpenCV (colour conversion, blurring,
the accumulated background model, thresholding, dilation and contour
extraction) are modelled as an abstract pipeline environment `CV`; the
contours it extracts are records carrying the data the detector actually
inspects: the contour area (`cv2.contourArea`) and the width and height
of its bounding rectangle (`cv2.boundingRect`).  Wall-clock reads
(`time.time()`) are passed in explicitly as a rational `realTime`; one
controller tick is modelled with a single such instant.  Machine floats
are modelled as rationals.  Side effects (camera calls, file writes,
sleeps) are recorded in explicit event traces.
-/

namespace Naturewatch

/-- A contour as returned by `cv2.findContours`, reduced to the data the
detector reads from it: its area and the width and height of its bounding
rectangle. -/
structure Contour where
  area : ℚ
  width : ℚ
  height : ℚ
deriving Repr, DecidableEq

/-- Abstract OpenCV pipeline: the image-processing primitives used by
`ChangeDetector.detect_change_contours`, over abstract types of colour
images, grayscale images and floating-point accumulation models. -/
structure CV (Img Gray Model : Type) where
  cvtColorGray : Img → Gray
  gaussianBlur : Gray → Gray
  astypeFloat : Gray → Model
  accumulateWeighted : Gray → Model → Model
  convertScaleAbs : Model → Gray
  absdiff : Gray → Gray → Gray
  thresholdBin : ℚ → Gray → Gray
  dilate : Gray → Gray
  findContours : Gray → List Contour

/-- The configuration values read by the modelled modules
(`config` dictionary entries used in the source). -/
structure Config where
  delta_threshold : ℚ
  min_photo_interval_s : ℚ
  timelapse_interval_s : ℚ
  video_duration_after_motion : ℚ
  md_width : ℚ
  photos_path : String
  videos_path : String
deriving Repr, DecidableEq

/-- The mutable attributes of `ChangeDetector` that the modelled methods
read or write.  `mode` is the Python string attribute (one of
`"inactive"`, `"photo"`, `"video"`, `"timelapse"`). -/
structure DetectorState (Model : Type) where
  mode : String
  avg : Option Model
  min_width : ℚ
  max_width : ℚ
  min_height : ℚ
  max_height : ℚ
  last_capture_time : ℚ
  session_start_time : Option ℚ
  device_time : Option ℚ
  device_time_start : Option ℚ
  timelapse_interval : ℚ
deriving Repr, DecidableEq

/-- `ChangeDetector.get_fake_time`: the real clock when no device time
has been set, otherwise the device time advanced by the real time elapsed
since it was set.  (In the source, `device_time_start` is always assigned
together with `device_time`; the `getD` default covers the unreachable
mismatched case, where the Python would raise a `TypeError`.) -/
def get_fake_time {Model : Type} (s : DetectorState Model) (realTime : ℚ) : ℚ :=
  match s.device_time with
  | none => realTime
  | some dt => dt + realTime - (s.device_time_start.getD 0)

/-- Helper for `get_largest_contour`: fold of `np.argmax` over the areas,
keeping the first contour of maximal area (a later contour replaces the
current best only when its area is strictly larger). -/
def argmaxArea (best : Contour) : List Contour → Contour
  | [] => best
  | c :: rest => if best.area < c.area then argmaxArea c rest else argmaxArea best rest

/-- `ChangeDetector.get_largest_contour`: `None` on an empty list,
otherwise the first contour of maximal area (`np.argmax` returns the
first index attaining the maximum). -/
def get_largest_contour : List Contour → Option Contour
  | [] => none
  | c :: rest => some (argmaxArea c rest)

/-- The grayscale blurred version of the current frame computed at the
top of `detect_change_contours`. -/
def grayOf {Img Gray Model : Type} (cv : CV Img Gray Model) (img : Img) : Gray :=
  cv.gaussianBlur (cv.cvtColorGray img)

/-- The contour list extracted by `detect_change_contours` once the
background model `m` is present: accumulate the frame into the model,
take the absolute difference against the rounded model, threshold,
dilate and extract external contours. -/
def contoursOf {Img Gray Model : Type} (cv : CV Img Gray Model) (cfg : Config)
    (m : Model) (img : Img) : List Contour :=
  cv.findContours (cv.dilate (cv.thresholdBin cfg.delta_threshold
    (cv.absdiff (grayOf cv img)
      (cv.convertScaleAbs (cv.accumulateWeighted (grayOf cv img) m)))))

/-- `ChangeDetector.detect_change_contours`: returns the updated detector
state (the background model is seeded or accumulated) and whether it is
time to capture.  On the first call (`avg is None`) the model is seeded
from the blurred grayscale frame and no motion is reported.  Otherwise
motion is reported exactly when the largest contour exists, its bounding
box lies within the sensitivity bounds, and the fake time elapsed since
`last_capture_time` is at least `min_photo_interval_s`. -/
def detect_change_contours {Img Gray Model : Type} (cv : CV Img Gray Model)
    (cfg : Config) (s : DetectorState Model) (realTime : ℚ) (img : Img) :
    DetectorState Model × Bool :=
  let gray := grayOf cv img
  match s.avg with
  | none => ({ s with avg := some (cv.astypeFloat gray) }, false)
  | some m =>
    let s1 : DetectorState Model := { s with avg := some (cv.accumulateWeighted gray m) }
    match get_largest_contour (contoursOf cv cfg m img) with
    | none => (s1, false)
    | some c =>
      if c.width < s.min_width ∨ c.height < s.min_height ∨
          c.width > s.max_width ∨ c.height > s.max_height then
        (s1, false)
      else if get_fake_time s realTime - s.last_capture_time ≥ cfg.min_photo_interval_s then
        (s1, true)
      else
        (s1, false)

/-- `os.path.join` for the two-argument relative-path uses in the source. -/
def ospathJoin (d f : String) : String :=
  if d.endsWith "/" then d ++ f else d ++ "/" ++ f

/-- File-system effects of a `FileSaver` call. -/
inductive FsEvent
  | writeFile (path : String)
  | callMP4Box (input output : String)
  | removeFile (path : String)
deriving Repr, DecidableEq

/-- Result of a `FileSaver` call: the returned value (a filename or
`None`) together with the file-system events it performed, in order. -/
structure SaveOutcome where
  ret : Option String
  events : List FsEvent
deriving Repr, DecidableEq

/-- `FileSaver.save_image`: refuses when storage usage is at least 99
percent; otherwise writes `{timestamp}.jpg` under the photos directory
and returns that filename, or returns `None` when `cv2.imwrite` raises
an encode error (`encodeOk = false`). -/
def save_image (cfg : Config) (storagePercent : ℚ) (encodeOk : Bool)
    (timestamp : String) : SaveOutcome :=
  if storagePercent ≥ 99 then
    { ret := none, events := [] }
  else
    let filename := timestamp ++ ".jpg"
    if encodeOk then
      { ret := some filename
        events := [FsEvent.writeFile (ospathJoin cfg.photos_path filename)] }
    else
      { ret := none, events := [] }

/-- `FileSaver.save_thumb`: writes `thumb_{timestamp}.jpg` under the
photos directory for media types `photo` and `timelapse` and under the
videos directory otherwise; there is no storage check. -/
def save_thumb (cfg : Config) (encodeOk : Bool) (timestamp media_type : String) :
    SaveOutcome :=
  let filename := "thumb_" ++ timestamp ++ ".jpg"
  let path :=
    if media_type = "photo" ∨ media_type = "timelapse" then
      ospathJoin cfg.photos_path filename
    else
      ospathJoin cfg.videos_path filename
  if encodeOk then
    { ret := some filename, events := [FsEvent.writeFile path] }
  else
    { ret := none, events := [] }

/-- `FileSaver.save_video`: refuses when storage usage is at least 99
percent; otherwise copies the buffered stream to `{timestamp}.h264` in
the videos directory, remuxes it with `MP4Box` into `{timestamp}.mp4`,
removes the intermediate raw file and returns the mp4 filename. -/
def save_video (cfg : Config) (storagePercent : ℚ) (timestamp : String) :
    SaveOutcome :=
  if storagePercent ≥ 99 then
    { ret := none, events := [] }
  else
    let filename := timestamp ++ ".h264"
    let filename_mp4 := timestamp ++ ".mp4"
    let input_video := ospathJoin cfg.videos_path filename
    let output_video := ospathJoin cfg.videos_path filename_mp4
    { ret := some filename_mp4
      events := [FsEvent.writeFile input_video,
                 FsEvent.callMP4Box input_video output_video,
                 FsEvent.removeFile input_video] }

/-- Externally observable actions of a `ChangeDetector` tick or session
call, in program order.  `saveVideoCall` is in the alphabet because
`FileSaver.save_video` exists, even though `update` never emits it. -/
inductive Event
  | sleep (seconds : ℚ)
  | getMdImage
  | getHiresImage
  | startVideoStream
  | stopVideoStream
  | waitRecording (seconds : ℚ)
  | saveImageCall (timestamp : String)
  | saveThumbCall (timestamp media_type : String)
  | saveVideoCall (timestamp : String)
  | setCameraOutputFile (filename : String)
  | cameraOutputStart
  | cameraOutputStop
deriving Repr, DecidableEq

/-- Environment of a controller tick: the OpenCV pipeline plus the
timestamp formatting of `get_formatted_time`
(`datetime.utcfromtimestamp(...).strftime(...)`). -/
structure Env (Img Gray Model : Type) where
  cv : CV Img Gray Model
  formatTime : ℚ → String

/-- Python exception kinds raised by `ChangeDetector.start_session`. -/
inductive SessionError
  | typeError
  | valueError
deriving Repr, DecidableEq

/-- A Python value passed as the `session_mode` argument. -/
inductive PyVal
  | str (s : String)
  | intVal (n : ℤ)
  | noneVal
deriving Repr, DecidableEq

/-- `ChangeDetector.start_session`: raises `TypeError` for a non-string
argument and `ValueError` for a string outside
`photo`, `video`, `timelapse`; both raises happen before any state
change, so on error the state is returned unchanged with an empty trace.
Otherwise it sets the mode, starts the video stream when the mode is
`video`, and records the session start fake time. -/
def start_session {Model : Type} (s : DetectorState Model) (realTime : ℚ)
    (session_mode : PyVal) :
    DetectorState Model × List Event × Option SessionError :=
  match session_mode with
  | PyVal.str m =>
    if m = "photo" ∨ m = "video" ∨ m = "timelapse" then
      ({ s with mode := m, session_start_time := some (get_fake_time s realTime) },
       if m = "video" then [Event.startVideoStream] else [],
       none)
    else
      (s, [], some SessionError.valueError)
  | _ => (s, [], some SessionError.typeError)

/-- `ChangeDetector.stop_session`: stops the video stream when the mode
is `video`, then always returns the mode to `inactive`. -/
def stop_session {Model : Type} (s : DetectorState Model) :
    DetectorState Model × List Event :=
  if s.mode = "video" then
    ({ s with mode := "inactive" }, [Event.stopVideoStream])
  else
    ({ s with mode := "inactive" }, [])

/-- One `ChangeDetector.update` tick.  `mdImage` is what
`camera_controller.get_md_image()` returned.  The tick begins with a
20 millisecond sleep; in `photo` or `video` mode it fetches the motion
detection image, runs `detect_change_contours`, and on a positive
detection either captures and saves a high resolution still followed by
its thumbnail (photo), or saves the thumbnail, waits the configured
post-motion duration, then records the camera output to
`{timestamp}.h264` for five seconds (video); in `timelapse` mode it
captures a still and thumbnail when the timelapse interval has elapsed. -/
def update {Img Gray Model : Type} (env : Env Img Gray Model) (cfg : Config)
    (s : DetectorState Model) (realTime : ℚ) (mdImage : Option Img) :
    DetectorState Model × List Event :=
  if s.mode = "photo" ∨ s.mode = "video" then
    match mdImage with
    | none => (s, [Event.sleep 0.02, Event.getMdImage, Event.sleep 1])
    | some img =>
      let s1 := (detect_change_contours env.cv cfg s realTime img).1
      if (detect_change_contours env.cv cfg s realTime img).2 then
        let timestamp := env.formatTime (get_fake_time s1 realTime)
        if s1.mode = "photo" then
          ({ s1 with last_capture_time := get_fake_time s1 realTime },
           [Event.sleep 0.02, Event.getMdImage, Event.getHiresImage,
            Event.saveImageCall timestamp,
            Event.saveThumbCall timestamp s1.mode])
        else if s1.mode = "video" then
          ({ s1 with last_capture_time := get_fake_time s1 realTime },
           [Event.sleep 0.02, Event.getMdImage,
            Event.saveThumbCall timestamp s1.mode,
            Event.waitRecording cfg.video_duration_after_motion,
            Event.setCameraOutputFile (timestamp ++ ".h264"),
            Event.cameraOutputStart, Event.sleep 5, Event.cameraOutputStop])
        else
          (s1, [Event.sleep 0.02, Event.getMdImage])
      else
        (s1, [Event.sleep 0.02, Event.getMdImage])
  else if s.mode = "timelapse" then
    if get_fake_time s realTime - s.last_capture_time ≥ s.timelapse_interval then
      let timestamp := env.formatTime (get_fake_time s realTime)
      ({ s with last_capture_time := get_fake_time s realTime },
       [Event.sleep 0.02, Event.getHiresImage,
        Event.saveImageCall timestamp,
        Event.saveThumbCall timestamp s.mode])
    else
      (s, [Event.sleep 0.02])
  else
    (s, [Event.sleep 0.02])

/-- HTTP response of the `update_time` endpoint, reduced to the status
code and the JSON body. -/
structure TimeResponse where
  status : Nat
  body : String
deriving Repr, DecidableEq

/-- `api.update_time` (the `POST /time/<time_string>` endpoint):
replies `304 NOT_MODIFIED` without touching anything when the device
time is already set; otherwise stores the offset and the current real
time and replies 200 when the parsed value exceeds 1580317004, and
replies 400 leaving the clock unset otherwise.  `timeValue` is
`float(time_string)`. -/
def update_time {Model : Type} (s : DetectorState Model) (realTime : ℚ)
    (timeValue : ℚ) (time_string : String) :
    DetectorState Model × TimeResponse :=
  if s.device_time ≠ none then
    (s, { status := 304
          body := "\x7b\"NOT_MODIFIED\": \"" ++ time_string ++ "\"\x7d" })
  else if timeValue > 1580317004 then
    ({ s with device_time := some timeValue, device_time_start := some realTime },
     { status := 200
       body := "\x7b\"SUCCESS\": \"" ++ time_string ++ "\"\x7d" })
  else
    (s, { status := 400
          body := "\x7b\"ERROR\": \"" ++ time_string ++ "\"\x7d" })

/-- Does the event invoke `FileSaver.save_image`. -/
def isSaveImageEvt : Event → Bool
  | Event.saveImageCall _ => true
  | _ => false

/-- Does the event invoke `FileSaver.save_thumb`. -/
def isSaveThumbEvt : Event → Bool
  | Event.saveThumbCall _ _ => true
  | _ => false

/-- Does the event invoke `FileSaver.save_video`. -/
def isSaveVideoEvt : Event → Bool
  | Event.saveVideoCall _ => true
  | _ => false

/-- Does the event start the direct camera output recording. -/
def isCameraOutputStartEvt : Event → Bool
  | Event.cameraOutputStart => true
  | _ => false

/-! ## Concrete instances used by witnesses and counterexamples -/

/-- Trivial OpenCV pipeline over unit images whose contour extraction
returns the fixed list `cs`. -/
def cvW (cs : List Contour) : CV Unit Unit Unit where
  cvtColorGray := fun _ => ()
  gaussianBlur := fun _ => ()
  astypeFloat := fun _ => ()
  accumulateWeighted := fun _ _ => ()
  convertScaleAbs := fun _ => ()
  absdiff := fun _ _ => ()
  thresholdBin := fun _ _ => ()
  dilate := fun _ => ()
  findContours := fun _ => cs

/-- Concrete tick environment with a fixed timestamp string. -/
def envW (cs : List Contour) : Env Unit Unit Unit :=
  { cv := cvW cs, formatTime := fun _ => "2020-01-29-16-56-45" }

/-- Concrete configuration values. -/
def cfgW : Config :=
  { delta_threshold := 10
    min_photo_interval_s := 5
    timelapse_interval_s := 30
    video_duration_after_motion := 8
    md_width := 640
    photos_path := "photos"
    videos_path := "videos" }

/-- Concrete freshly-initialised detector state. -/
def sW : DetectorState Unit :=
  { mode := "inactive"
    avg := none
    min_width := 20
    max_width := 200
    min_height := 20
    max_height := 200
    last_capture_time := 0
    session_start_time := none
    device_time := none
    device_time_start := none
    timelapse_interval := 30 }

/-- Concrete state in photo mode with a seeded background model. -/
def sWphoto : DetectorState Unit :=
  { sW with mode := "photo", avg := some () }

/-- Concrete state in video mode with a seeded background model. -/
def sWvideo : DetectorState Unit :=
  { sW with mode := "video", avg := some () }

/-- Concrete state in timelapse mode. -/
def sWlapse : DetectorState Unit :=
  { sW with mode := "timelapse", avg := some () }

/-- A single qualifying 50 by 50 contour. -/
def contourW : Contour := { area := 2500, width := 50, height := 50 }

/-! ## Helper lemmas -/

/-- The contour kept by `argmaxArea` is the initial candidate or an
element of the remaining list. -/
theorem argmaxArea_mem (best : Contour) (l : List Contour) :
    argmaxArea best l = best ∨ argmaxArea best l ∈ l := by
  induction l generalizing best with
  | nil => exact Or.inl rfl
  | cons c rest ih =>
    simp only [argmaxArea]
    split
    · rcases ih c with h | h
      · exact Or.inr (by simp [h])
      · exact Or.inr (List.mem_cons_of_mem _ h)
    · rcases ih best with h | h
      · exact Or.inl h
      · exact Or.inr (List.mem_cons_of_mem _ h)

/-- The contour kept by `argmaxArea` has maximal area among the initial
candidate and the remaining list. -/
theorem argmaxArea_area_le (best : Contour) (l : List Contour) :
    best.area ≤ (argmaxArea best l).area ∧
      ∀ d ∈ l, d.area ≤ (argmaxArea best l).area := by
  induction l generalizing best with
  | nil => exact ⟨le_refl _, by simp⟩
  | cons c rest ih =>
    simp only [argmaxArea]
    split
    · next hlt =>
      obtain ⟨h1, h2⟩ := ih c
      refine ⟨le_of_lt (lt_of_lt_of_le hlt h1), ?_⟩
      intro d hd
      rcases List.mem_cons.mp hd with rfl | hd
      · exact h1
      · exact h2 d hd
    · next hge =>
      obtain ⟨h1, h2⟩ := ih best
      refine ⟨h1, ?_⟩
      intro d hd
      rcases List.mem_cons.mp hd with rfl | hd
      · exact le_trans (not_lt.mp hge) h1
      · exact h2 d hd

/-- `get_largest_contour` returns a member of the list of maximal area. -/
theorem get_largest_contour_spec (cnts : List Contour) (c : Contour)
    (h : get_largest_contour cnts = some c) :
    c ∈ cnts ∧ ∀ d ∈ cnts, d.area ≤ c.area := by
  cases cnts with
  | nil => simp [get_largest_contour] at h
  | cons a rest =>
    simp only [get_largest_contour, Option.some.injEq] at h
    subst h
    constructor
    · rcases argmaxArea_mem a rest with h | h
      · rw [h]; exact List.mem_cons_self a rest
      · exact List.mem_cons_of_mem _ h
    · intro d hd
      obtain ⟨h1, h2⟩ := argmaxArea_area_le a rest
      rcases List.mem_cons.mp hd with rfl | hd
      · exact h1
      · exact h2 d hd

/-! ## Claim theorems -/

/-- C6: the very first `detect_change_contours` call after the background
model is unset (`avg is None`) only seeds the model from the blurred
grayscale frame and reports no motion, regardless of frame content. -/
theorem detect_first_call_seeds_no_motion {Img Gray Model : Type}
    (cv : CV Img Gray Model) (cfg : Config) (s : DetectorState Model)
    (realTime : ℚ) (img : Img) (h : s.avg = none) :
    detect_change_contours cv cfg s realTime img =
      ({ s with avg := some (cv.astypeFloat (grayOf cv img)) }, false) := by
  obtain ⟨mo, av, mw, xw, mh, xh, lct, sst, dt, dts, ti⟩ := s
  simp only at h
  subst h
  rfl

/-- C1: once the background model `m` is present, `detect_change_contours`
reports motion if and only if the thresholded difference image has a
largest-area external contour whose bounding box lies within
`[min_width, max_width] × [min_height, max_height]` and the fake time
elapsed since `last_capture_time` is at least `min_photo_interval_s`;
moreover the selected contour really is one of maximal area. -/
theorem detect_motion_iff {Img Gray Model : Type} (cv : CV Img Gray Model)
    (cfg : Config) (s : DetectorState Model) (realTime : ℚ) (img : Img)
    (m : Model) (h : s.avg = some m) :
    ((detect_change_contours cv cfg s realTime img).2 = true ↔
      ∃ c, get_largest_contour (contoursOf cv cfg m img) = some c ∧
        s.min_width ≤ c.width ∧ c.width ≤ s.max_width ∧
        s.min_height ≤ c.height ∧ c.height ≤ s.max_height ∧
        get_fake_time s realTime - s.last_capture_time ≥ cfg.min_photo_interval_s) ∧
    (∀ c, get_largest_contour (contoursOf cv cfg m img) = some c →
      c ∈ contoursOf cv cfg m img ∧
        ∀ d ∈ contoursOf cv cfg m img, d.area ≤ c.area) := by
  refine ⟨?_, fun c hc => get_largest_contour_spec _ c hc⟩
  obtain ⟨mo, av, mw, xw, mh, xh, lct, sst, dt, dts, ti⟩ := s
  simp only at h
  subst h
  simp only [detect_change_contours]
  cases hg : get_largest_contour (contoursOf cv cfg m img) with
  | none =>
    simp only [hg]
    simp
  | some c =>
    simp only [hg]
    split_ifs with hbad hint
    · simp only [Bool.false_eq_true, false_iff]
      rintro ⟨c2, hc2, hw1, hw2, hh1, hh2, hi⟩
      injection hc2 with e
      subst e
      rcases hbad with hb | hb | hb | hb
      · exact absurd hw1 (not_le.mpr hb)
      · exact absurd hh1 (not_le.mpr hb)
      · exact absurd hw2 (not_le.mpr hb)
      · exact absurd hh2 (not_le.mpr hb)
    · simp only [true_iff]
      push_neg at hbad
      obtain ⟨h1, h2, h3, h4⟩ := hbad
      exact ⟨c, rfl, h1, h3, h2, h4, hint⟩
    · simp only [Bool.false_eq_true, false_iff]
      rintro ⟨c2, hc2, hw1, hw2, hh1, hh2, hi⟩
      injection hc2 with e
      subst e
      exact hint hi

/-- Witness for C6: on the fresh state the first call seeds the model and
reports no motion. -/
theorem detect_first_call_seeds_no_motion_witness :
    sW.avg = none ∧
      detect_change_contours (cvW [contourW]) cfgW sW 7 () =
        ({ sW with avg := some () }, false) :=
  ⟨rfl, detect_first_call_seeds_no_motion (cvW [contourW]) cfgW sW 7 () rfl⟩

/-- Witness for C1: with a seeded model, a qualifying 50 by 50 contour and
an elapsed interval of 100 seconds against a 5 second minimum, the
detector reports motion. -/
theorem detect_motion_iff_witness :
    sWphoto.avg = some () ∧
      (detect_change_contours (cvW [contourW]) cfgW sWphoto 100 ()).2 = true :=
  ⟨rfl,
    ((detect_motion_iff (cvW [contourW]) cfgW sWphoto 100 () () rfl).1).mpr
      ⟨contourW, rfl, by decide, by decide, by decide, by decide,
        by norm_num [get_fake_time, sWphoto, sW, cfgW, contourW]⟩⟩

/-- C2: `save_image` refuses (returns `None`, writes nothing) when
storage usage is at least 99 percent; below 99 percent a successful
encode writes `{timestamp}.jpg` under the photos directory and returns
that filename, and an encode error returns `None` (writing nothing). -/
theorem save_image_spec (cfg : Config) (p : ℚ) (ok : Bool) (ts : String) :
    (p ≥ 99 → save_image cfg p ok ts = { ret := none, events := [] }) ∧
    (p < 99 → ok = true → save_image cfg p ok ts =
      { ret := some (ts ++ ".jpg")
        events := [FsEvent.writeFile (ospathJoin cfg.photos_path (ts ++ ".jpg"))] }) ∧
    (p < 99 → ok = false → save_image cfg p ok ts = { ret := none, events := [] }) := by
  refine ⟨fun h => ?_, fun h hok => ?_, fun h hok => ?_⟩
  · simp [save_image, h]
  · simp [save_image, not_le.mpr h, hok]
  · simp [save_image, not_le.mpr h, hok]

/-- Witness for C2 at concrete storage percentages 100 and 50. -/
theorem save_image_spec_witness :
    save_image cfgW 100 true "t" = { ret := none, events := [] } ∧
    save_image cfgW 50 true "t" =
      { ret := some ("t" ++ ".jpg")
        events := [FsEvent.writeFile (ospathJoin cfgW.photos_path ("t" ++ ".jpg"))] } ∧
    save_image cfgW 50 false "t" = { ret := none, events := [] } :=
  ⟨(save_image_spec cfgW 100 true "t").1 (by norm_num),
   (save_image_spec cfgW 50 true "t").2.1 (by norm_num) rfl,
   (save_image_spec cfgW 50 false "t").2.2 (by norm_num) rfl⟩

/-- C5: the first successful `setDeviceClock` fixes the fake-time offset;
every later call, with any value, is answered 304 and changes nothing,
so subsequent fake times are unaffected by it. -/
theorem device_clock_set_once {Model : Type} (s : DetectorState Model)
    (rt1 v1 : ℚ) (ts1 : String) (h0 : s.device_time = none)
    (hacc : v1 > 1580317004) (rt2 v2 rt3 : ℚ) (ts2 : String) :
    (update_time s rt1 v1 ts1).1.device_time = some v1 ∧
    (update_time s rt1 v1 ts1).1.device_time_start = some rt1 ∧
    (update_time (update_time s rt1 v1 ts1).1 rt2 v2 ts2).1 =
      (update_time s rt1 v1 ts1).1 ∧
    (update_time (update_time s rt1 v1 ts1).1 rt2 v2 ts2).2.status = 304 ∧
    get_fake_time (update_time (update_time s rt1 v1 ts1).1 rt2 v2 ts2).1 rt3 =
      get_fake_time (update_time s rt1 v1 ts1).1 rt3 := by
  have h1 : (update_time s rt1 v1 ts1).1 =
      { s with device_time := some v1, device_time_start := some rt1 } := by
    simp [update_time, h0, hacc]
  rw [h1]
  refine ⟨rfl, rfl, ?_, ?_, ?_⟩ <;> simp [update_time]

/-- Witness for C5: set the clock to 1600000000 at real time 100, then a
second request with a different value at real time 200 is answered 304. -/
theorem device_clock_set_once_witness :
    sW.device_time = none ∧ (1600000000 : ℚ) > 1580317004 ∧
      (update_time (update_time sW 100 1600000000 "a").1 200 1700000000 "b").2.status
        = 304 :=
  ⟨rfl, by norm_num,
    (device_clock_set_once sW 100 1600000000 "a" rfl (by norm_num)
      200 1700000000 300 "b").2.2.2.1⟩

/-- C10: while the device clock is unset, a set request with value `v` is
accepted with status 200 (storing the offset and the real time) exactly
when `v > 1580317004`; otherwise it is rejected with status 400, the
clock stays unset and the fake time remains the real time. -/
theorem update_time_unset {Model : Type} (s : DetectorState Model)
    (rt v : ℚ) (ts : String) (h0 : s.device_time = none) :
    ((update_time s rt v ts).2.status = 200 ↔ v > 1580317004) ∧
    (v > 1580317004 →
      (update_time s rt v ts).1.device_time = some v ∧
      (update_time s rt v ts).1.device_time_start = some rt) ∧
    (¬ v > 1580317004 →
      (update_time s rt v ts).1 = s ∧
      (update_time s rt v ts).2.status = 400 ∧
      ∀ r : ℚ, get_fake_time (update_time s rt v ts).1 r = r) := by
  by_cases hv : v > 1580317004
  · refine ⟨?_, fun _ => ⟨?_, ?_⟩, fun h => absurd hv h⟩ <;>
      simp [update_time, h0, hv]
  · refine ⟨?_, fun h => absurd h hv, fun _ => ⟨?_, ?_, fun r => ?_⟩⟩ <;>
      simp [update_time, h0, hv, get_fake_time]

/-- Witness for C10: with the clock unset, value 100 (not above
1580317004) is rejected with 400 and the fake time stays the real time,
while value 1600000000 is accepted with 200. -/
theorem update_time_unset_witness :
    sW.device_time = none ∧
      (update_time sW 50 100 "x").2.status = 400 ∧
      get_fake_time (update_time sW 50 100 "x").1 77 = 77 ∧
      (update_time sW 50 1600000000 "y").2.status = 200 ∧
      (update_time sW 50 1600000000 "y").1.device_time = some 1600000000 :=
  ⟨rfl,
    ((update_time_unset sW 50 100 "x" rfl).2.2 (by norm_num)).2.1,
    ((update_time_unset sW 50 100 "x" rfl).2.2 (by norm_num)).2.2 77,
    (update_time_unset sW 50 1600000000 "y" rfl).1.mpr (by norm_num),
    ((update_time_unset sW 50 1600000000 "y" rfl).2.1 (by norm_num)).1⟩

/-- C7: from any state, starting a video session and immediately stopping
it performs exactly one video-stream start call and one stop call,
performs no capture or save of any kind, and leaves the mode inactive. -/
theorem video_session_start_stop {Model : Type} (s : DetectorState Model) (rt : ℚ) :
    (start_session s rt (PyVal.str "video")).1 =
      { s with mode := "video", session_start_time := some (get_fake_time s rt) } ∧
    (start_session s rt (PyVal.str "video")).2.1 = [Event.startVideoStream] ∧
    (start_session s rt (PyVal.str "video")).2.2 = none ∧
    (stop_session (start_session s rt (PyVal.str "video")).1).1.mode = "inactive" ∧
    (stop_session (start_session s rt (PyVal.str "video")).1).2 =
      [Event.stopVideoStream] ∧
    ((start_session s rt (PyVal.str "video")).2.1 ++
        (stop_session (start_session s rt (PyVal.str "video")).1).2).count
      Event.startVideoStream = 1 ∧
    ((start_session s rt (PyVal.str "video")).2.1 ++
        (stop_session (start_session s rt (PyVal.str "video")).1).2).count
      Event.stopVideoStream = 1 ∧
    ∀ e ∈ (start_session s rt (PyVal.str "video")).2.1 ++
        (stop_session (start_session s rt (PyVal.str "video")).1).2,
      e = Event.startVideoStream ∨ e = Event.stopVideoStream := by
  refine ⟨rfl, rfl, rfl, rfl, rfl, rfl, rfl, ?_⟩
  intro e he
  have h : (start_session s rt (PyVal.str "video")).2.1 ++
      (stop_session (start_session s rt (PyVal.str "video")).1).2 =
      [Event.startVideoStream, Event.stopVideoStream] := rfl
  rw [h] at he
  simpa using he

/-- C9: a non-string session mode raises `TypeError` and an unknown
string raises `ValueError`, in both cases before any state change: the
detector state is returned untouched and no camera call is made. -/
theorem start_session_invalid {Model : Type} (s : DetectorState Model)
    (rt : ℚ) (m : String)
    (hm : m ≠ "photo" ∧ m ≠ "video" ∧ m ≠ "timelapse") :
    start_session s rt (PyVal.str m) = (s, [], some SessionError.valueError) ∧
    (∀ n : ℤ, start_session s rt (PyVal.intVal n) =
      (s, [], some SessionError.typeError)) ∧
    start_session s rt PyVal.noneVal = (s, [], some SessionError.typeError) := by
  obtain ⟨h1, h2, h3⟩ := hm
  refine ⟨?_, fun n => rfl, rfl⟩
  simp [start_session, h1, h2, h3]

/-- Witness for C9 at the unknown string `banana` and the integer 3. -/
theorem start_session_invalid_witness :
    ("banana" ≠ "photo" ∧ "banana" ≠ "video" ∧ "banana" ≠ "timelapse") ∧
      start_session sW 5 (PyVal.str "banana") =
        (sW, [], some SessionError.valueError) ∧
      start_session sW 5 (PyVal.intVal 3) =
        (sW, [], some SessionError.typeError) :=
  ⟨by decide,
    (start_session_invalid sW 5 "banana" (by decide)).1,
    (start_session_invalid sW 5 "banana" (by decide)).2.1 3⟩

/-- `detect_change_contours` only touches the background model: the mode
and the clock-related fields of the state, hence the fake time, are
preserved. -/
theorem detect_change_contours_fields {Img Gray Model : Type}
    (cv : CV Img Gray Model) (cfg : Config) (s : DetectorState Model)
    (rt : ℚ) (img : Img) :
    (detect_change_contours cv cfg s rt img).1.mode = s.mode ∧
    (detect_change_contours cv cfg s rt img).1.last_capture_time =
      s.last_capture_time ∧
    ∀ r : ℚ, get_fake_time (detect_change_contours cv cfg s rt img).1 r =
      get_fake_time s r := by
  obtain ⟨mo, av, mw, xw, mh, xh, lct, sst, dt, dts, ti⟩ := s
  cases av with
  | none => exact ⟨rfl, rfl, fun r => rfl⟩
  | some m =>
    rcases hg : get_largest_contour (contoursOf cv cfg m img) with _ | c
    · simp only [detect_change_contours, hg]
      simp [get_fake_time]
    · simp only [detect_change_contours, hg]
      split_ifs <;> simp [get_fake_time]

/-- C8: in timelapse mode a tick captures exactly when the fake time
elapsed since the last capture reaches the timelapse interval; on a
capture it performs one high-resolution save and one thumbnail save
tagged `timelapse` (which `save_thumb` places under the photos
directory) and sets the last capture time to the current fake time;
otherwise nothing is captured and the last capture time is unchanged. -/
theorem timelapse_tick {Img Gray Model : Type} (env : Env Img Gray Model)
    (cfg : Config) (s : DetectorState Model) (rt : ℚ) (mdImage : Option Img)
    (hmode : s.mode = "timelapse") :
    (get_fake_time s rt - s.last_capture_time ≥ s.timelapse_interval →
      update env cfg s rt mdImage =
        ({ s with last_capture_time := get_fake_time s rt },
         [Event.sleep 0.02, Event.getHiresImage,
          Event.saveImageCall (env.formatTime (get_fake_time s rt)),
          Event.saveThumbCall (env.formatTime (get_fake_time s rt)) "timelapse"])) ∧
    (get_fake_time s rt - s.last_capture_time < s.timelapse_interval →
      update env cfg s rt mdImage = (s, [Event.sleep 0.02])) ∧
    (∀ ts2 : String, (save_thumb cfg true ts2 "timelapse").events =
      [FsEvent.writeFile (ospathJoin cfg.photos_path ("thumb_" ++ ts2 ++ ".jpg"))]) := by
  refine ⟨fun h => ?_, fun h => ?_, fun ts2 => rfl⟩
  · simp [update, hmode, h]
  · simp [update, hmode, not_le.mpr h]

/-- Witness for C8: with the interval 30 and last capture at fake time 0,
the tick at fake time 31 captures a still and a timelapse thumbnail and
resets the last capture time, while the tick at 29 does nothing. -/
theorem timelapse_tick_witness :
    sWlapse.mode = "timelapse" ∧
      update (envW []) cfgW sWlapse 31 none =
        ({ sWlapse with last_capture_time := get_fake_time sWlapse 31 },
         [Event.sleep 0.02, Event.getHiresImage,
          Event.saveImageCall ((envW []).formatTime (get_fake_time sWlapse 31)),
          Event.saveThumbCall ((envW []).formatTime (get_fake_time sWlapse 31))
            "timelapse"]) ∧
      update (envW []) cfgW sWlapse 29 none = (sWlapse, [Event.sleep 0.02]) :=
  ⟨rfl,
    (timelapse_tick (envW []) cfgW sWlapse 31 none rfl).1
      (by norm_num [get_fake_time, sWlapse, sW]),
    (timelapse_tick (envW []) cfgW sWlapse 29 none rfl).2.1
      (by norm_num [get_fake_time, sWlapse, sW])⟩

/-- Full result of a video-mode tick with a positive detection: the
thumbnail save, the post-motion wait, then the direct camera-output
recording to `{timestamp}.h264`, and the last capture time reset.  No
`save_video` call appears. -/
theorem update_video_branch_trace {Img Gray Model : Type}
    (env : Env Img Gray Model) (cfg : Config) (s : DetectorState Model)
    (rt : ℚ) (img : Img) (hmode : s.mode = "video")
    (hmotion : (detect_change_contours env.cv cfg s rt img).2 = true) :
    update env cfg s rt (some img) =
      ({ (detect_change_contours env.cv cfg s rt img).1 with
          last_capture_time := get_fake_time s rt },
       [Event.sleep 0.02, Event.getMdImage,
        Event.saveThumbCall (env.formatTime (get_fake_time s rt)) "video",
        Event.waitRecording cfg.video_duration_after_motion,
        Event.setCameraOutputFile (env.formatTime (get_fake_time s rt) ++ ".h264"),
        Event.cameraOutputStart, Event.sleep 5, Event.cameraOutputStop]) := by
  obtain ⟨hm, hl, hf⟩ := detect_change_contours_fields env.cv cfg s rt img
  simp [update, hmotion, hm, hmode, hf rt]

/-- Full result of a photo-mode tick with a positive detection: the
high-resolution capture and save, then the thumbnail save, and the last
capture time reset. -/
theorem update_photo_branch_trace {Img Gray Model : Type}
    (env : Env Img Gray Model) (cfg : Config) (s : DetectorState Model)
    (rt : ℚ) (img : Img) (hmode : s.mode = "photo")
    (hmotion : (detect_change_contours env.cv cfg s rt img).2 = true) :
    update env cfg s rt (some img) =
      ({ (detect_change_contours env.cv cfg s rt img).1 with
          last_capture_time := get_fake_time s rt },
       [Event.sleep 0.02, Event.getMdImage, Event.getHiresImage,
        Event.saveImageCall (env.formatTime (get_fake_time s rt)),
        Event.saveThumbCall (env.formatTime (get_fake_time s rt)) "photo"]) := by
  obtain ⟨hm, hl, hf⟩ := detect_change_contours_fields env.cv cfg s rt img
  simp [update, hmotion, hm, hmode, hf rt]

/-- The concrete photo-mode state detects motion on the qualifying
contour when 100 seconds of fake time have elapsed. -/
theorem detectW_photo_true :
    (detect_change_contours (cvW [contourW]) cfgW sWphoto 100 ()).2 = true := by
  norm_num [detect_change_contours, contoursOf, get_largest_contour, argmaxArea,
    grayOf, get_fake_time, cvW, cfgW, sWphoto, sW, contourW]

/-- The concrete video-mode state detects motion on the qualifying
contour when 100 seconds of fake time have elapsed. -/
theorem detectW_video_true :
    (detect_change_contours (cvW [contourW]) cfgW sWvideo 100 ()).2 = true := by
  norm_num [detect_change_contours, contoursOf, get_largest_contour, argmaxArea,
    grayOf, get_fake_time, cvW, cfgW, sWvideo, sW, contourW]

/-- Counterexample to C3: in a concrete video-mode tick with a positive
detection, the trace contains no `save_video` call at all — the rolling
buffer is never flushed to the persistence layer, so no
`{timestamp}.mp4` is produced and no intermediate raw segment is
removed; the tick instead records the camera output directly into
`{timestamp}.h264`. -/
theorem video_tick_no_flush_counterexample :
    (update (envW [contourW]) cfgW sWvideo 100 (some ())).2.filter isSaveVideoEvt
      = [] ∧
    (update (envW [contourW]) cfgW sWvideo 100 (some ())).2 =
      [Event.sleep 0.02, Event.getMdImage,
       Event.saveThumbCall "2020-01-29-16-56-45" "video",
       Event.waitRecording 8,
       Event.setCameraOutputFile ("2020-01-29-16-56-45" ++ ".h264"),
       Event.cameraOutputStart, Event.sleep 5, Event.cameraOutputStop] := by
  rw [update_video_branch_trace (envW [contourW]) cfgW sWvideo 100 () rfl
    detectW_video_true]
  exact ⟨rfl, rfl⟩

/-- C3 (amended): in every video-mode tick with a positive detection the
controller saves the thumbnail, waits the configured post-motion
duration, then records the camera output directly into
`{timestamp}.h264` (start, five-second sleep, stop) and updates the
last capture time; it never calls `FileSaver.save_video`, so no
`{timestamp}.mp4` is produced and no intermediate segment is removed in
the tick.  `FileSaver.save_video` itself, when called with storage
below 99 percent, would produce `{timestamp}.mp4` and remove the raw
`.h264` segment. -/
theorem video_tick_records_h264 {Img Gray Model : Type}
    (env : Env Img Gray Model) (cfg : Config) (s : DetectorState Model)
    (rt : ℚ) (img : Img) (hmode : s.mode = "video")
    (hmotion : (detect_change_contours env.cv cfg s rt img).2 = true) :
    (update env cfg s rt (some img)).2 =
      [Event.sleep 0.02, Event.getMdImage,
       Event.saveThumbCall (env.formatTime (get_fake_time s rt)) "video",
       Event.waitRecording cfg.video_duration_after_motion,
       Event.setCameraOutputFile (env.formatTime (get_fake_time s rt) ++ ".h264"),
       Event.cameraOutputStart, Event.sleep 5, Event.cameraOutputStop] ∧
    (update env cfg s rt (some img)).2.filter isSaveVideoEvt = [] ∧
    (update env cfg s rt (some img)).1.last_capture_time = get_fake_time s rt ∧
    (∀ p : ℚ, p < 99 → ∀ ts : String,
      (save_video cfg p ts).ret = some (ts ++ ".mp4") ∧
      (save_video cfg p ts).events =
        [FsEvent.writeFile (ospathJoin cfg.videos_path (ts ++ ".h264")),
         FsEvent.callMP4Box (ospathJoin cfg.videos_path (ts ++ ".h264"))
           (ospathJoin cfg.videos_path (ts ++ ".mp4")),
         FsEvent.removeFile (ospathJoin cfg.videos_path (ts ++ ".h264"))]) := by
  rw [update_video_branch_trace env cfg s rt img hmode hmotion]
  refine ⟨rfl, rfl, rfl, fun p hp ts => ?_⟩
  constructor <;> simp [save_video, not_le.mpr hp]

/-- Witness for the amended C3 at the concrete video tick. -/
theorem video_tick_records_h264_witness :
    sWvideo.mode = "video" ∧
      (detect_change_contours (cvW [contourW]) cfgW sWvideo 100 ()).2 = true ∧
      (update (envW [contourW]) cfgW sWvideo 100 (some ())).1.last_capture_time
        = get_fake_time sWvideo 100 :=
  ⟨rfl, detectW_video_true,
    (video_tick_records_h264 (envW [contourW]) cfgW sWvideo 100 () rfl
      detectW_video_true).2.2.1⟩

/-- Counterexample to C4: in a concrete photo-mode tick with a positive
detection, the full-resolution image save sits at index 3 of the trace
and the thumbnail save at index 4 — the full save happens strictly
before the thumbnail save, not after it. -/
theorem photo_tick_thumb_not_first_counterexample :
    (update (envW [contourW]) cfgW sWphoto 100 (some ())).2.findIdx isSaveImageEvt
      = 3 ∧
    (update (envW [contourW]) cfgW sWphoto 100 (some ())).2.findIdx isSaveThumbEvt
      = 4 ∧
    (update (envW [contourW]) cfgW sWphoto 100 (some ())).2.findIdx isSaveImageEvt <
      (update (envW [contourW]) cfgW sWphoto 100 (some ())).2.findIdx
        isSaveThumbEvt := by
  rw [update_photo_branch_trace (envW [contourW]) cfgW sWphoto 100 () rfl
    detectW_photo_true]
  refine ⟨rfl, rfl, ?_⟩
  show (3 : ℕ) < 4
  norm_num

/-- C4 (amended): within one controller tick with a positive detection,
in video mode the thumbnail save happens before the camera-output
recording starts, but in photo mode the full-resolution image save
happens before the thumbnail save. -/
theorem capture_order_in_tick {Img Gray Model : Type}
    (env : Env Img Gray Model) (cfg : Config) (s : DetectorState Model)
    (rt : ℚ) (img : Img)
    (hmotion : (detect_change_contours env.cv cfg s rt img).2 = true) :
    (s.mode = "photo" →
      (update env cfg s rt (some img)).2.findIdx isSaveImageEvt <
        (update env cfg s rt (some img)).2.findIdx isSaveThumbEvt) ∧
    (s.mode = "video" →
      (update env cfg s rt (some img)).2.findIdx isSaveThumbEvt <
        (update env cfg s rt (some img)).2.findIdx isCameraOutputStartEvt) := by
  constructor
  · intro hmode
    rw [update_photo_branch_trace env cfg s rt img hmode hmotion]
    show (3 : ℕ) < 4
    norm_num
  · intro hmode
    rw [update_video_branch_trace env cfg s rt img hmode hmotion]
    show (2 : ℕ) < 5
    norm_num

/-- Witness for the amended C4 at the concrete photo tick. -/
theorem capture_order_in_tick_witness :
    (detect_change_contours (cvW [contourW]) cfgW sWphoto 100 ()).2 = true ∧
      sWphoto.mode = "photo" ∧
      (update (envW [contourW]) cfgW sWphoto 100 (some ())).2.findIdx
          isSaveImageEvt <
        (update (envW [contourW]) cfgW sWphoto 100 (some ())).2.findIdx
          isSaveThumbEvt :=
  ⟨detectW_photo_true, rfl,
    (capture_order_in_tick (envW [contourW]) cfgW sWphoto 100 ()
      detectW_photo_true).1 rfl⟩

end Naturewatch
